import Mathlib

/-!
# Verification of the EbookAiGenerator generation state machine and Markdown renderer

Shallow embedding of the repository's core logic:

* `src/src/services/gemini.service.ts` — the Content Provider wrapper
  (`GeminiService`).  The external Gemini API is modelled by a
  `ProviderBehavior` oracle giving, for the single outline call and for the
  i-th chapter call of a run, either a successful payload or a thrown error;
  `hasKey` models whether the `API_KEY` credential was present at
  construction (`this.genAI` being set).
* `src/src/app.component.ts` — the orchestrator (`AppComponent`).
  Angular signals become fields of an explicit `AppState`; the constructor's
  `effect` reacting to the service error signal is applied immediately after
  every write to that signal (`runServiceErrorEffect`), matching the spec's
  "forces an immediate transition to `error`" reading.  `generateEbook`
  returns, besides the final state, the chronological list of provider-method
  invocations and the chronological trace of states after each signal write.
* `AppComponent.parseMarkdown` — each chained JavaScript `String.replace`
  becomes an explicit character-list transformation with the same
  left-to-right, non-overlapping global-replace semantics.  The `^.../gim`
  line-anchored rules are modelled per line (lines separated by `'\n'`,
  as in all inputs considered here).  The non-structural scans carry a fuel
  argument initialised to the input length, which every step strictly
  exceeds, so the fuel never runs out on the top-level calls.
-/

namespace EbookGen

/-- `models/ebook.model.ts`: one outline entry (`TocStructure.chapters[i]`). -/
structure ChapterSpec where
  title : String
  sections : List String
  deriving DecidableEq, Repr

/-- `models/ebook.model.ts`: `Chapter` — outline entry plus generated content. -/
structure Chapter where
  title : String
  sections : List String
  content : String
  deriving DecidableEq, Repr

/-- `models/ebook.model.ts`: `Ebook`. -/
structure Ebook where
  title : String
  chapters : List Chapter
  deriving DecidableEq, Repr

/-- `gemini.service.ts`: the `TocStructure` expected from the model. -/
structure TocStructure where
  title : String
  chapters : List ChapterSpec
  deriving DecidableEq, Repr

/-- Outcome of one call to the external generative model: either a payload or
a thrown/failed call (caught by the service's `try`/`catch`). -/
inductive FetchResult (α : Type) where
  | ok (v : α)
  | fail
  deriving DecidableEq, Repr

/-- Oracle for the external Gemini API during one generation run: whether the
API key was configured, the outcome of the outline call, and the outcome of
the i-th chapter-content call (the orchestrator issues them in order
`0, 1, ...`). -/
structure ProviderBehavior where
  hasKey : Bool
  tocResult : FetchResult TocStructure
  chapterResult : Nat → FetchResult String

/-- `app.component.ts` line 21: the `ebookState` signal values. -/
inductive EbookState where
  | idle
  | generating
  | completed
  | error
  | exporting
  deriving DecidableEq, Repr

/-- `app.component.ts` line 22: the `generationProgress` signal value. -/
structure GenProgress where
  current : Nat
  total : Nat
  message : String
  deriving DecidableEq, Repr

/-- `app.component.ts` line 28: the font size signal values. -/
inductive FontSize where
  | sm
  | base
  | lg
  | xl
  deriving DecidableEq, Repr

/-- The mutable signals of `AppComponent` plus the `GeminiService.error`
signal (`serviceError` is the component's view of it). -/
structure AppState where
  ebookState : EbookState
  generationProgress : GenProgress
  ebook : Option Ebook
  ebookTopic : String
  componentError : Option String
  serviceError : Option String
  fontSize : FontSize
  deriving DecidableEq, Repr

/-- `gemini.service.ts` line 68: message written to the error signal when the
outline call throws. -/
def tocFailMsg : String :=
  "Failed to generate the table of contents. Please check the console for details."

/-- `gemini.service.ts` line 86: message written to the error signal when the
chapter call throws. -/
def chapterFailMsg (chapterTitle : String) : String :=
  "Failed to generate content for chapter: " ++ chapterTitle ++ "."

/-- `gemini.service.ts` line 87: placeholder returned as chapter content when
the chapter call throws. -/
def chapterPlaceholder : String :=
  "Error generating content for this chapter."

/-- `GeminiService.generateTableOfContents`: given the oracle and the current
value of the error signal, returns the call's result together with the error
signal's value after the call.  With no API key (`this.genAI` unset) it
returns `null` without touching the signal; otherwise it clears the signal,
and on a thrown call writes `tocFailMsg` and returns `null`. -/
def generateTableOfContents (b : ProviderBehavior) (err : Option String) :
    Option TocStructure × Option String :=
  if b.hasKey = false then (none, err)
  else
    match b.tocResult with
    | FetchResult.ok toc => (some toc, none)
    | FetchResult.fail => (none, some tocFailMsg)

/-- `GeminiService.generateChapterContent` for the i-th chapter call of a run:
with no API key it returns `""` without touching the error signal; otherwise
it clears the signal, and on a thrown call writes `chapterFailMsg` and
returns the fixed `chapterPlaceholder` string. -/
def generateChapterContent (b : ProviderBehavior) (i : Nat) (chapterTitle : String)
    (err : Option String) : String × Option String :=
  if b.hasKey = false then ("", err)
  else
    match b.chapterResult i with
    | FetchResult.ok s => (s, none)
    | FetchResult.fail => (chapterPlaceholder, some (chapterFailMsg chapterTitle))

/-- JavaScript `String.prototype.trim` over the ASCII whitespace class,
modelled structurally so that concrete instances evaluate in the kernel
(`String.trim` of the core library is extensionally the same on the inputs
considered here but does not kernel-reduce). -/
def jsTrim (s : String) : String :=
  String.mk (((s.data.dropWhile Char.isWhitespace).reverse.dropWhile Char.isWhitespace).reverse)

/-- `app.component.ts` lines 49–55: the constructor's `effect` — whenever the
service error signal holds a (truthy, i.e. present) message, force the state
machine to `error`.  It is applied after every write to `serviceError`. -/
def runServiceErrorEffect (s : AppState) : AppState :=
  if s.serviceError.isSome then { s with ebookState := EbookState.error } else s

/-- One recorded invocation of a `GeminiService` method by the orchestrator. -/
inductive PCall where
  | getOutline (topic : String)
  | getChapter (topic chapterTitle : String) (sections : List String)
  deriving DecidableEq, Repr

/-- Result of the chapter loop of `generateEbook` (lines 88–95). -/
structure LoopResult where
  chapters : List Chapter
  final : AppState
  calls : List PCall
  trace : List AppState

/-- Result of a whole `generateEbook` run: final state, provider calls in
order, and the chronological trace of states after each signal write
(beginning with the initial state). -/
structure RunResult where
  final : AppState
  calls : List PCall
  trace : List AppState

/-- `app.component.ts` lines 88–95: the sequential chapter loop.  For the
i-th outline entry it updates the progress signal, calls
`generateChapterContent`, applies the error effect, and appends the chapter
(outline entry spread plus `content`). -/
def chapterLoop (b : ProviderBehavior) (topic : String) (totalChapters : Nat) :
    List ChapterSpec → Nat → AppState → LoopResult
  | [], _, s => { chapters := [], final := s, calls := [], trace := [] }
  | spec :: rest, i, s =>
    let s1 : AppState :=
      { s with generationProgress :=
        { current := i + 1, total := s.generationProgress.total,
          message := "Generating chapter " ++ toString (i + 1) ++ "/" ++
            toString totalChapters ++ ": " ++ spec.title } }
    let res := generateChapterContent b i spec.title s1.serviceError
    let s2 := runServiceErrorEffect { s1 with serviceError := res.2 }
    let r := chapterLoop b topic totalChapters rest (i + 1) s2
    { chapters := { title := spec.title, sections := spec.sections, content := res.1 } :: r.chapters,
      final := r.final,
      calls := PCall.getChapter topic spec.title spec.sections :: r.calls,
      trace := s1 :: s2 :: r.trace }

/-- `AppComponent.generateEbook` (lines 65–103), as a function of the provider
oracle and the starting state. -/
def generateEbook (b : ProviderBehavior) (s0 : AppState) : RunResult :=
  let topic := jsTrim s0.ebookTopic
  if topic = "" then
    let s1 := { s0 with componentError := some "Please provide a topic for your ebook." }
    let s2 := { s1 with ebookState := EbookState.error }
    { final := s2, calls := [], trace := [s0, s1, s2] }
  else
    let s1 := { s0 with componentError := none }
    let s2 := { s1 with ebookState := EbookState.generating }
    let s3 := { s2 with generationProgress :=
      { current := 0, total := 1, message := "Generating table of contents..." } }
    let res := generateTableOfContents b s3.serviceError
    let s4 := runServiceErrorEffect { s3 with serviceError := res.2 }
    match res.1 with
    | none =>
      let s5 := { s4 with ebookState := EbookState.error }
      let s6 := { s5 with generationProgress :=
        { current := 0, total := 0, message := "Could not generate a valid table of contents." } }
      { final := s6, calls := [PCall.getOutline topic], trace := [s0, s1, s2, s3, s4, s5, s6] }
    | some toc =>
      if toc.chapters.length = 0 then
        let s5 := { s4 with ebookState := EbookState.error }
        let s6 := { s5 with generationProgress :=
          { current := 0, total := 0, message := "Could not generate a valid table of contents." } }
        { final := s6, calls := [PCall.getOutline topic], trace := [s0, s1, s2, s3, s4, s5, s6] }
      else
        let totalChapters := toc.chapters.length
        let s5 := { s4 with generationProgress :=
          { current := 0, total := totalChapters,
            message := "Table of contents generated. Generating chapters..." } }
        let r := chapterLoop b topic totalChapters toc.chapters 0 s5
        let s7 := { r.final with ebook := some { title := toc.title, chapters := r.chapters } }
        let s8 := { s7 with ebookState := EbookState.completed }
        { final := s8,
          calls := PCall.getOutline topic :: r.calls,
          trace := [s0, s1, s2, s3, s4, s5] ++ r.trace ++ [s7, s8] }

/-! ## The Markdown renderer (`AppComponent.parseMarkdown`, lines 105–124)

Each JavaScript `String.replace` of the chain is one definition below, with
the same left-to-right, non-overlapping global-replace semantics.  The
line-anchored `^.../gim` rules act line by line (`mapLines`); the scans that
consume a variable number of characters per match carry a fuel argument
initialised to the input length, which always suffices because every step
consumes at least one character. -/

/-- The ASCII part of the JavaScript `\s` character class. -/
def isJsSpace (c : Char) : Bool :=
  c == ' ' || c == '\t' || c == '\n' || c == '\r' || c == '\x0b' || c == '\x0c'

/-- Split a character list at every `'\n'` (the line structure seen by the
`m`-flagged anchors). -/
def splitLines : List Char → List (List Char)
  | [] => [[]]
  | '\n' :: rest => [] :: splitLines rest
  | c :: rest =>
    match splitLines rest with
    | l :: ls => (c :: l) :: ls
    | [] => [[c]]

/-- Apply a line-anchored rule to every line. -/
def mapLines (f : List Char → List Char) (cs : List Char) : List Char :=
  List.intercalate ['\n'] ((splitLines cs).map f)

/-- Line 108: `^### (.*$)` → `<h3 ...>$1</h3>`. -/
def h3Line (line : List Char) : List Char :=
  if List.isPrefixOf ('#' :: '#' :: '#' :: ' ' :: []) line then
    ("<h3 class=\"text-xl font-semibold mt-6 mb-2 text-indigo-300\">").data ++
      line.drop 4 ++ ("</h3>").data
  else line

/-- Line 109: `^## (.*$)` → `<h2 ...>$1</h2>`. -/
def h2Line (line : List Char) : List Char :=
  if List.isPrefixOf ('#' :: '#' :: ' ' :: []) line then
    ("<h2 class=\"text-2xl font-bold mt-8 mb-4 text-indigo-400 border-b border-gray-600 pb-2\">").data ++
      line.drop 3 ++ ("</h2>").data
  else line

/-- Line 110: `^# (.*$)` → `<h1 ...>$1</h1>`. -/
def h1Line (line : List Char) : List Char :=
  if List.isPrefixOf ('#' :: ' ' :: []) line then
    ("<h1 class=\"text-3xl font-extrabold mt-8 mb-4 text-indigo-300\">").data ++
      line.drop 2 ++ ("</h1>").data
  else line

/-- Line 111: `^\> (.*$)` → `<blockquote ...>$1</blockquote>`. -/
def bqLine (line : List Char) : List Char :=
  if List.isPrefixOf ('>' :: ' ' :: []) line then
    ("<blockquote class=\"border-l-4 border-indigo-500 pl-4 italic text-gray-400 my-4\">").data ++
      line.drop 2 ++ ("</blockquote>").data
  else line

/-- For the lazy `\*\*(.*?)\*\*`: earliest closing `**` reachable without
crossing a line break (`.` does not match `'\n'`); returns the capture and
the remainder after the close. -/
def findBoldClose : List Char → Option (List Char × List Char)
  | '*' :: '*' :: rest => some ([], rest)
  | '\n' :: _ => none
  | c :: rest =>
    match findBoldClose rest with
    | some (cap, r) => some (c :: cap, r)
    | none => none
  | [] => none

/-- Line 112: `\*\*(.*?)\*\*` → `<strong ...>$1</strong>`, scanning left to
right; a position with no reachable close is retried one character later. -/
def replaceBoldF : Nat → List Char → List Char
  | _, [] => []
  | 0, cs => cs
  | fuel + 1, '*' :: '*' :: rest =>
    match findBoldClose rest with
    | some (cap, r) =>
      ("<strong class=\"text-indigo-300\">").data ++ cap ++ ("</strong>").data ++
        replaceBoldF fuel r
    | none => '*' :: replaceBoldF fuel ('*' :: rest)
  | fuel + 1, c :: rest => c :: replaceBoldF fuel rest

/-- Line 112 entry point. -/
def replaceBold (cs : List Char) : List Char := replaceBoldF cs.length cs

/-- For the lazy `\*(.*?)\*`: earliest closing `*` reachable without crossing
a line break. -/
def findItalicClose : List Char → Option (List Char × List Char)
  | '*' :: rest => some ([], rest)
  | '\n' :: _ => none
  | c :: rest =>
    match findItalicClose rest with
    | some (cap, r) => some (c :: cap, r)
    | none => none
  | [] => none

/-- Line 113: `\*(.*?)\*` → `<em>$1</em>`. -/
def replaceItalicF : Nat → List Char → List Char
  | _, [] => []
  | 0, cs => cs
  | fuel + 1, '*' :: rest =>
    match findItalicClose rest with
    | some (cap, r) => ("<em>").data ++ cap ++ ("</em>").data ++ replaceItalicF fuel r
    | none => '*' :: replaceItalicF fuel rest
  | fuel + 1, c :: rest => c :: replaceItalicF fuel rest

/-- Line 113 entry point. -/
def replaceItalic (cs : List Char) : List Char := replaceItalicF cs.length cs

/-- The backquote character (0x60), delimiter of inline code spans. -/
def backquote : Char := '\x60'

/-- For `` [^`]+ `` followed by a closing backquote: the capture is the
maximal nonempty backquote-free run, which must be followed by a backquote. -/
def findCodeClose (cs : List Char) : Option (List Char × List Char) :=
  let cap := cs.takeWhile (fun c => !(c == backquote))
  match cs.dropWhile (fun c => !(c == backquote)) with
  | _ :: rest => if cap.isEmpty then none else some (cap, rest)
  | [] => none

/-- Line 114: inline code spans → `<code ...>$1</code>`. -/
def replaceCodeF : Nat → List Char → List Char
  | _, [] => []
  | 0, cs => cs
  | fuel + 1, c :: rest =>
    if c == backquote then
      match findCodeClose rest with
      | some (cap, r) =>
        ("<code class=\"bg-gray-700 text-red-300 rounded px-2 py-1 text-sm\">").data ++ cap ++
          ("</code>").data ++ replaceCodeF fuel r
      | none => c :: replaceCodeF fuel rest
    else c :: replaceCodeF fuel rest

/-- Line 114 entry point. -/
def replaceCode (cs : List Char) : List Char := replaceCodeF cs.length cs

/-- Line 115: `\n\n` → `</p><p class="my-4 leading-relaxed">`. -/
def replaceParaBreaks : List Char → List Char
  | '\n' :: '\n' :: rest => ("</p><p class=\"my-4 leading-relaxed\">").data ++ replaceParaBreaks rest
  | c :: rest => c :: replaceParaBreaks rest
  | [] => []

/-- Line 116: `\n` → `<br>`. -/
def replaceBr : List Char → List Char
  | '\n' :: rest => ("<br>").data ++ replaceBr rest
  | c :: rest => c :: replaceBr rest
  | [] => []

/-- Attempt of `(\r\n|\n)?\s*[\-\*] (.*)` at the current position: a
whitespace run (subsuming the optional leading newline), a `-` or `*`, one
space, then the greedy `(.*)` capture up to the next line terminator. -/
def tryLi (cs : List Char) : Option (List Char × List Char) :=
  match cs.dropWhile isJsSpace with
  | c :: ' ' :: rest =>
    if c == '-' || c == '*' then
      some (rest.takeWhile (fun ch => !(ch == '\n' || ch == '\r')),
            rest.dropWhile (fun ch => !(ch == '\n' || ch == '\r')))
    else none
  | _ => none

/-- Line 119: list-item rule → `<li>$2</li>`. -/
def replaceLiF : Nat → List Char → List Char
  | _, [] => []
  | 0, cs => cs
  | fuel + 1, c :: rest =>
    match tryLi (c :: rest) with
    | some (cap, r) => ("<li>").data ++ cap ++ ("</li>").data ++ replaceLiF fuel r
    | none => c :: replaceLiF fuel rest

/-- Line 119 entry point. -/
def replaceLi (cs : List Char) : List Char := replaceLiF cs.length cs

/-- Split at the first occurrence of `pat`: `some (before, after)`. -/
def splitFirst (pat : List Char) : List Char → Option (List Char × List Char)
  | [] => none
  | c :: rest =>
    if List.isPrefixOf pat (c :: rest) then some ([], (c :: rest).drop pat.length)
    else
      match splitFirst pat rest with
      | some (pre, post) => some (c :: pre, post)
      | none => none

/-- Split at the last occurrence of `pat`: `some (before, after)`. -/
def splitLast (pat : List Char) : List Char → Option (List Char × List Char)
  | [] => none
  | c :: rest =>
    match splitLast pat rest with
    | some (pre, post) => some (c :: pre, post)
    | none =>
      if List.isPrefixOf pat (c :: rest) then some ([], (c :: rest).drop pat.length)
      else none

/-- Line 120: `(<li>.*<\/li>)/gs` → `<ul>$1</ul>`.  With the dotall greedy
`.*` this wraps everything from the first `<li>` to the last `</li>` in one
`<ul>`; with no such pair the string is unchanged. -/
def wrapUl (cs : List Char) : List Char :=
  match splitFirst ("<li>").data cs with
  | none => cs
  | some (pre, rest) =>
    match splitLast ("</li>").data rest with
    | none => cs
    | some (mid, post) =>
      pre ++ ("<ul>").data ++ ("<li>").data ++ mid ++ ("</li>").data ++ ("</ul>").data ++ post

/-- Line 121: `<\/ul>\s*<ul>` → `''` (merging adjacent list containers). -/
def mergeUlF : Nat → List Char → List Char
  | _, [] => []
  | 0, cs => cs
  | fuel + 1, c :: rest =>
    if List.isPrefixOf ("</ul>").data (c :: rest) then
      let after := ((c :: rest).drop 5).dropWhile isJsSpace
      if List.isPrefixOf ("<ul>").data after then mergeUlF fuel (after.drop 4)
      else c :: mergeUlF fuel rest
    else c :: mergeUlF fuel rest

/-- Line 121 entry point. -/
def mergeUl (cs : List Char) : List Char := mergeUlF cs.length cs

/-- `AppComponent.parseMarkdown` (lines 105–124): the full substitution
chain, in source order, wrapped once more in the enclosing paragraph. -/
def parseMarkdown (text : String) : String :=
  if text = "" then ""
  else
    let html := mapLines h3Line text.data
    let html := mapLines h2Line html
    let html := mapLines h1Line html
    let html := mapLines bqLine html
    let html := replaceBold html
    let html := replaceItalic html
    let html := replaceCode html
    let html := replaceParaBreaks html
    let html := replaceBr html
    let html := replaceLi html
    let html := wrapUl html
    let html := mergeUl html
    "<p class=\"my-4 leading-relaxed\">" ++ String.mk html ++ "</p>"

/-- Outcome of one export attempt by the external HTML→PDF pipeline. -/
inductive ExportOutcome where
  | success
  | failure
  deriving DecidableEq, Repr

/-- `app.component.ts` line 176: component error message on export failure. -/
def exportFailMsg : String := "An unexpected error occurred during PDF export."

/-- `AppComponent.exportToPdf` (lines 126–184): clears the component error and
enters `exporting`; on pipeline success the `callback` restores `completed`,
on a thrown pipeline error the `catch` records `exportFailMsg` and sets
`error`.  The `ebook` signal is never written. -/
def exportToPdf (outcome : ExportOutcome) (s : AppState) : AppState :=
  let s1 := { s with componentError := none, ebookState := EbookState.exporting }
  match outcome with
  | ExportOutcome.success => { s1 with ebookState := EbookState.completed }
  | ExportOutcome.failure =>
    { s1 with componentError := some exportFailMsg, ebookState := EbookState.error }

/-! ## Characterizations and concrete inputs used in the proofs -/

/-- The content string recorded for the k-th chapter call when the API key is
configured: the payload on success, the fixed placeholder on failure. -/
def chContentAt (b : ProviderBehavior) (k : Nat) : String :=
  match b.chapterResult k with
  | FetchResult.ok v => v
  | FetchResult.fail => chapterPlaceholder

/-- The chapter list the loop assembles from the outline entries, starting at
call index `i` (when the API key is configured). -/
def chaptersOf (b : ProviderBehavior) : List ChapterSpec → Nat → List Chapter
  | [], _ => []
  | sp :: rest, i =>
    { title := sp.title, sections := sp.sections, content := chContentAt b i } ::
      chaptersOf b rest (i + 1)

/-- `GenerationProgress.current` never decreases along a list of states. -/
def ProgressMono : List AppState → Prop
  | [] => True
  | [_] => True
  | a :: b :: rest =>
    a.generationProgress.current ≤ b.generationProgress.current ∧ ProgressMono (b :: rest)

/-- The outline of the spec's end-to-end scenario (§8). -/
def tocDemo : TocStructure :=
  { title := "Bread 101",
    chapters := [{ title := "Intro", sections := ["history"] },
                 { title := "Dough", sections := ["hydration", "kneading"] }] }

/-- Provider oracle: key configured, outline and all chapters succeed. -/
def bDemo : ProviderBehavior :=
  { hasKey := true, tocResult := FetchResult.ok tocDemo,
    chapterResult := fun _ => FetchResult.ok "## Section\nSome *text*." }

/-- Provider oracle: key configured, outline succeeds, chapter 0 throws. -/
def bFailChap : ProviderBehavior :=
  { hasKey := true, tocResult := FetchResult.ok tocDemo,
    chapterResult := fun i => if i = 0 then FetchResult.fail else FetchResult.ok "body" }

/-- Provider oracle: API key missing. -/
def bNoKey : ProviderBehavior :=
  { hasKey := false, tocResult := FetchResult.fail,
    chapterResult := fun _ => FetchResult.fail }

/-- A fresh component state with a non-empty topic. -/
def s0Demo : AppState :=
  { ebookState := EbookState.idle,
    generationProgress := { current := 0, total := 0, message := "" },
    ebook := none, ebookTopic := "bread baking", componentError := none,
    serviceError := none, fontSize := FontSize.base }

/-- A fresh component state whose topic is whitespace-only. -/
def s0Blank : AppState := { s0Demo with ebookTopic := "   " }

/-- A state mid-generation. -/
def sGenDemo : AppState := { s0Demo with ebookState := EbookState.generating }

/-- The Ebook assembled by a previous completed run. -/
def ebookDemo : Ebook :=
  { title := "Bread 101",
    chapters := [{ title := "Intro", sections := ["history"], content := "x" }] }

/-- A completed run's state, holding an assembled Ebook. -/
def sCompDemo : AppState :=
  { s0Demo with
    ebookState := EbookState.completed
    generationProgress := ⟨2, 2, "done"⟩
    ebook := some ebookDemo }

/-! ## Basic lemmas -/

theorem runServiceErrorEffect_progress (s : AppState) :
    (runServiceErrorEffect s).generationProgress = s.generationProgress := by
  unfold runServiceErrorEffect; split <;> rfl

theorem runServiceErrorEffect_ebook (s : AppState) :
    (runServiceErrorEffect s).ebook = s.ebook := by
  unfold runServiceErrorEffect; split <;> rfl

theorem generateChapterContent_fst (b : ProviderBehavior) (i : Nat) (t : String)
    (err : Option String) (hk : b.hasKey = true) :
    (generateChapterContent b i t err).1 = chContentAt b i := by
  unfold generateChapterContent chContentAt
  rw [hk]
  cases b.chapterResult i <;> rfl

theorem gtoc_ok (b : ProviderBehavior) (toc : TocStructure) (err : Option String)
    (hk : b.hasKey = true) (htoc : b.tocResult = FetchResult.ok toc) :
    generateTableOfContents b err = (some toc, none) := by
  simp [generateTableOfContents, hk, htoc]

/-! ## Lemmas about the chapter loop -/

theorem chapterLoop_calls (b : ProviderBehavior) (topic : String) (tot : Nat)
    (specs : List ChapterSpec) : ∀ (i : Nat) (s : AppState),
    (chapterLoop b topic tot specs i s).calls =
      specs.map (fun sp => PCall.getChapter topic sp.title sp.sections) := by
  induction specs with
  | nil => intro i s; rfl
  | cons sp rest ih => intro i s; simp [chapterLoop, ih]

theorem chapterLoop_chapters (b : ProviderBehavior) (topic : String) (tot : Nat)
    (hk : b.hasKey = true) (specs : List ChapterSpec) : ∀ (i : Nat) (s : AppState),
    (chapterLoop b topic tot specs i s).chapters = chaptersOf b specs i := by
  induction specs with
  | nil => intro i s; rfl
  | cons sp rest ih =>
    intro i s
    simp [chapterLoop, chaptersOf, ih, generateChapterContent_fst b i sp.title _ hk]

theorem chaptersOf_length (b : ProviderBehavior) (specs : List ChapterSpec) :
    ∀ i, (chaptersOf b specs i).length = specs.length := by
  induction specs with
  | nil => intro i; rfl
  | cons sp rest ih => intro i; simp [chaptersOf, ih]

theorem chaptersOf_getElem? (b : ProviderBehavior) (specs : List ChapterSpec) :
    ∀ i j, (chaptersOf b specs i)[j]? =
      (specs[j]?).map
        (fun sp =>
          ({ title := sp.title, sections := sp.sections,
             content := chContentAt b (i + j) } : Chapter)) := by
  induction specs with
  | nil => intro i j; simp [chaptersOf]
  | cons sp rest ih =>
    intro i j
    cases j with
    | zero => simp [chaptersOf]
    | succ j =>
      have : i + (j + 1) = (i + 1) + j := by omega
      simp [chaptersOf, ih (i + 1) j, this]

theorem chapterLoop_final_ebook (b : ProviderBehavior) (topic : String) (tot : Nat)
    (specs : List ChapterSpec) : ∀ (i : Nat) (s : AppState),
    (chapterLoop b topic tot specs i s).final.ebook = s.ebook := by
  induction specs with
  | nil => intro i s; rfl
  | cons sp rest ih =>
    intro i s
    simp [chapterLoop, ih, runServiceErrorEffect_ebook]

theorem chapterLoop_trace_ebook (b : ProviderBehavior) (topic : String) (tot : Nat)
    (specs : List ChapterSpec) : ∀ (i : Nat) (s : AppState) (st : AppState),
    st ∈ (chapterLoop b topic tot specs i s).trace → st.ebook = s.ebook := by
  induction specs with
  | nil => intro i s st h; simp [chapterLoop] at h
  | cons sp rest ih =>
    intro i s st h
    simp only [chapterLoop, List.mem_cons] at h
    rcases h with h | h | h
    · subst h; rfl
    · subst h; rw [runServiceErrorEffect_ebook]
    · rw [ih (i + 1) _ st h, runServiceErrorEffect_ebook]

theorem chapterLoop_final_progress (b : ProviderBehavior) (topic : String) (tot : Nat)
    (specs : List ChapterSpec) : ∀ (i : Nat) (s : AppState), specs ≠ [] →
    (chapterLoop b topic tot specs i s).final.generationProgress.current = i + specs.length ∧
    (chapterLoop b topic tot specs i s).final.generationProgress.total =
      s.generationProgress.total := by
  induction specs with
  | nil => intro i s h; cases h rfl
  | cons sp rest ih =>
    intro i s _
    by_cases hr : rest = []
    · subst hr
      simp [chapterLoop, runServiceErrorEffect_progress]
    · simp only [chapterLoop]
      constructor
      · rw [(ih (i + 1) _ hr).1]
        simp [List.length_cons]; omega
      · rw [(ih (i + 1) _ hr).2, runServiceErrorEffect_progress]

theorem chapterLoop_mono (b : ProviderBehavior) (topic : String) (tot : Nat)
    (specs : List ChapterSpec) : ∀ (i : Nat) (s : AppState) (tail : List AppState),
    s.generationProgress.current ≤ i + 1 →
    ProgressMono ((chapterLoop b topic tot specs i s).final :: tail) →
    ProgressMono (s :: ((chapterLoop b topic tot specs i s).trace ++ tail)) := by
  induction specs with
  | nil => intro i s tail hle hm; simpa [chapterLoop] using hm
  | cons sp rest ih =>
    intro i s tail hle hm
    simp only [chapterLoop, List.cons_append] at hm ⊢
    refine ⟨hle, ?_⟩
    refine ⟨by rw [runServiceErrorEffect_progress], ?_⟩
    exact ih (i + 1) _ tail
      (by rw [runServiceErrorEffect_progress]; exact Nat.le_succ (i + 1)) hm

/-! ## Claim theorems -/

/-- C2: whenever the Content Provider writes a non-null value to its error
side channel while the state machine is `generating`, the constructor effect
transitions the state to `error`, overriding in-progress work. -/
theorem serviceError_write_forces_error (s : AppState) (m : String)
    (h : s.ebookState = EbookState.generating) :
    (runServiceErrorEffect { s with serviceError := some m }).ebookState = EbookState.error := by
  simp [runServiceErrorEffect]

/-- Witness for C2 at a concrete mid-generation state. -/
theorem serviceError_write_forces_error_w :
    sGenDemo.ebookState = EbookState.generating ∧
      (runServiceErrorEffect { sGenDemo with serviceError := some tocFailMsg }).ebookState =
        EbookState.error :=
  ⟨rfl, serviceError_write_forces_error sGenDemo tocFailMsg rfl⟩

/-- C3: a topic that is empty after trimming transitions directly to `error`
with the validation message, makes no provider call, and records no progress
(progress and ebook are left untouched). -/
theorem emptyTopic_validation_error (b : ProviderBehavior) (s0 : AppState)
    (h : jsTrim s0.ebookTopic = "") :
    (generateEbook b s0).final.ebookState = EbookState.error ∧
    (generateEbook b s0).final.componentError = some "Please provide a topic for your ebook." ∧
    (generateEbook b s0).calls = [] ∧
    (generateEbook b s0).final.generationProgress = s0.generationProgress ∧
    (generateEbook b s0).final.ebook = s0.ebook := by
  simp [generateEbook, h]

/-- Witness for C3 on a whitespace-only topic. -/
theorem emptyTopic_validation_error_w :
    jsTrim s0Blank.ebookTopic = "" ∧
      (generateEbook bDemo s0Blank).final.ebookState = EbookState.error ∧
      (generateEbook bDemo s0Blank).calls = [] :=
  ⟨by decide, (emptyTopic_validation_error bDemo s0Blank (by decide)).1,
    (emptyTopic_validation_error bDemo s0Blank (by decide)).2.2.1⟩

/-- C6 (actual behavior at the claimed input): because the single `\n` has
already been replaced by `<br>` when the list rule runs, the greedy `(.*)`
of the list-item regex swallows the second `- b`, so the output is ONE list
container wrapping ONE list item whose text is `a<br>- b` — not two items. -/
theorem parseMarkdown_dash_list :
    parseMarkdown "- a\n- b" =
      "<p class=\"my-4 leading-relaxed\"><ul><li>a<br>- b</li></ul></p>" := by
  rfl

/-- C7: export failure from `completed` sets `error` with the export-specific
message while leaving the Ebook unchanged, and a retried successful export
returns to `completed` with the same Ebook. -/
theorem export_failure_preserves_ebook (s : AppState)
    (h : s.ebookState = EbookState.completed) :
    (exportToPdf ExportOutcome.failure s).ebookState = EbookState.error ∧
    (exportToPdf ExportOutcome.failure s).componentError = some exportFailMsg ∧
    (exportToPdf ExportOutcome.failure s).ebook = s.ebook ∧
    (exportToPdf ExportOutcome.success (exportToPdf ExportOutcome.failure s)).ebookState =
      EbookState.completed ∧
    (exportToPdf ExportOutcome.success (exportToPdf ExportOutcome.failure s)).ebook = s.ebook := by
  simp [exportToPdf]

/-- Witness for C7 at a concrete completed state. -/
theorem export_failure_preserves_ebook_w :
    sCompDemo.ebookState = EbookState.completed ∧
      (exportToPdf ExportOutcome.failure sCompDemo).ebook = sCompDemo.ebook :=
  ⟨rfl, (export_failure_preserves_ebook sCompDemo rfl).2.2.1⟩

/-- C8 as stated is false: with missing credentials the chapter call fails,
yet the returned string is `""`, not the fixed placeholder. -/
theorem getChapterContent_noKey_not_placeholder :
    ¬ (generateChapterContent bNoKey 0 "Intro" none).1 = chapterPlaceholder := by
  decide

/-- C8 amended: `generateChapterContent` always returns a string (never
null/undefined, no exception escapes); on a thrown provider call the string
is the fixed placeholder; on missing credentials it is the empty string. -/
theorem getChapterContent_total (b : ProviderBehavior) (i : Nat) (t : String)
    (err : Option String) :
    (b.hasKey = false → generateChapterContent b i t err = ("", err)) ∧
    (b.hasKey = true → b.chapterResult i = FetchResult.fail →
      generateChapterContent b i t err = (chapterPlaceholder, some (chapterFailMsg t))) := by
  constructor
  · intro h; simp [generateChapterContent, h]
  · intro h hf; simp [generateChapterContent, h, hf]

/-- Witness for C8 (amended) in both failure modes. -/
theorem getChapterContent_total_w :
    bNoKey.hasKey = false ∧
      generateChapterContent bNoKey 0 "Intro" none = ("", none) ∧
      generateChapterContent bFailChap 0 "Intro" none =
        (chapterPlaceholder, some (chapterFailMsg "Intro")) :=
  ⟨rfl, (getChapterContent_total bNoKey 0 "Intro" none).1 rfl,
    (getChapterContent_total bFailChap 0 "Intro" none).2 rfl (by decide)⟩

/-- A `#` run of length `k ≥ 1` not followed by a space matches none of the
three heading prefixes. -/
theorem hashRun_no_heading_pfx (k : Nat) (rest : List Char)
    (hk : 1 ≤ k) (hsp : rest.head? ≠ some ' ') (hhash : rest.head? ≠ some '#') :
    (List.isPrefixOf ('#' :: '#' :: '#' :: ' ' :: []) (List.replicate k '#' ++ rest) = false) ∧
    (List.isPrefixOf ('#' :: '#' :: ' ' :: []) (List.replicate k '#' ++ rest) = false) ∧
    (List.isPrefixOf ('#' :: ' ' :: []) (List.replicate k '#' ++ rest) = false) := by
  match k, hk with
  | 1, _ =>
    cases rest with
    | nil => decide
    | cons c t =>
      simp only [Option.some.injEq, List.head?_cons, ne_eq] at hsp hhash
      simp [List.isPrefixOf, List.replicate, Ne.symm hsp, Ne.symm hhash]
  | 2, _ =>
    cases rest with
    | nil => decide
    | cons c t =>
      simp only [Option.some.injEq, List.head?_cons, ne_eq] at hsp hhash
      simp [List.isPrefixOf, List.replicate, Ne.symm hsp, Ne.symm hhash]
  | 3, _ =>
    cases rest with
    | nil => decide
    | cons c t =>
      simp only [Option.some.injEq, List.head?_cons, ne_eq] at hsp hhash
      simp [List.isPrefixOf, List.replicate, Ne.symm hsp, Ne.symm hhash]
  | (m + 4), _ =>
    simp [List.isPrefixOf, List.replicate]

/-- C10: the heading rules fire only when the `#` markers are immediately
followed by a space; on any line whose `#` run is not, every heading rule
leaves the line unchanged (so the `#` characters stay literal), and on the
concrete line `#Title` the whole renderer keeps `#Title` verbatim. -/
theorem heading_requires_space (k : Nat) (rest : List Char)
    (hk : 1 ≤ k) (hsp : rest.head? ≠ some ' ') (hhash : rest.head? ≠ some '#') :
    h1Line (h2Line (h3Line (List.replicate k '#' ++ rest))) = List.replicate k '#' ++ rest ∧
    parseMarkdown "#Title" = "<p class=\"my-4 leading-relaxed\">#Title</p>" := by
  refine ⟨?_, rfl⟩
  obtain ⟨p3, p2, p1⟩ := hashRun_no_heading_pfx k rest hk hsp hhash
  simp [h1Line, h2Line, h3Line, p1, p2, p3]

/-- Witness for C10 on the line `#Title`. -/
theorem heading_requires_space_w :
    ("Title").data.head? ≠ some ' ' ∧
      h1Line (h2Line (h3Line (List.replicate 1 '#' ++ ("Title").data))) =
        List.replicate 1 '#' ++ ("Title").data :=
  ⟨by decide, (heading_requires_space 1 ("Title").data (by decide) (by decide) (by decide)).1⟩

theorem gtoc_noKey (b : ProviderBehavior) (err : Option String) (h : b.hasKey = false) :
    generateTableOfContents b err = (none, err) := by
  simp [generateTableOfContents, h]

theorem gtoc_fail (b : ProviderBehavior) (err : Option String)
    (hk : b.hasKey = true) (h : b.tocResult = FetchResult.fail) :
    generateTableOfContents b err = (none, some tocFailMsg) := by
  simp [generateTableOfContents, hk, h]

/-- C4: on a successful outline with a non-empty chapter list, the final
Ebook has exactly one Chapter per outline entry in outline order, each
carrying the entry's title and sections, and the provider calls are the
outline call followed by the chapter calls strictly in outline order. -/
theorem ebook_matches_outline (b : ProviderBehavior) (s0 : AppState) (toc : TocStructure)
    (htop : ¬ jsTrim s0.ebookTopic = "") (hk : b.hasKey = true)
    (htoc : b.tocResult = FetchResult.ok toc) (hne : ¬ toc.chapters.length = 0) :
    ∃ e, (generateEbook b s0).final.ebook = some e ∧
      e.title = toc.title ∧
      e.chapters.length = toc.chapters.length ∧
      (∀ j : Nat, (e.chapters[j]?).map Chapter.title = (toc.chapters[j]?).map ChapterSpec.title) ∧
      (∀ j : Nat, (e.chapters[j]?).map Chapter.sections =
        (toc.chapters[j]?).map ChapterSpec.sections) ∧
      (generateEbook b s0).calls =
        PCall.getOutline (jsTrim s0.ebookTopic) ::
          toc.chapters.map (fun c => PCall.getChapter (jsTrim s0.ebookTopic) c.title c.sections) := by
  have hg : ∀ e, generateTableOfContents b e = (some toc, none) :=
    fun e => gtoc_ok b toc e hk htoc
  simp only [generateEbook, hg, htop, if_false, ite_false, if_neg htop, if_neg hne]
  refine ⟨_, rfl, rfl, ?_, ?_, ?_, ?_⟩
  · rw [chapterLoop_chapters b _ _ hk, chaptersOf_length]
  · intro j
    rw [chapterLoop_chapters b _ _ hk, chaptersOf_getElem?]
    cases toc.chapters[j]? <;> rfl
  · intro j
    rw [chapterLoop_chapters b _ _ hk, chaptersOf_getElem?]
    cases toc.chapters[j]? <;> rfl
  · rw [chapterLoop_calls]

/-- Witness for C4 on the demo outline. -/
theorem ebook_matches_outline_w :
    ∃ e, (generateEbook bDemo s0Demo).final.ebook = some e ∧
      e.title = tocDemo.title ∧ e.chapters.length = tocDemo.chapters.length ∧
      (∀ j : Nat, (e.chapters[j]?).map Chapter.title = (tocDemo.chapters[j]?).map ChapterSpec.title) ∧
      (∀ j : Nat, (e.chapters[j]?).map Chapter.sections =
        (tocDemo.chapters[j]?).map ChapterSpec.sections) ∧
      (generateEbook bDemo s0Demo).calls =
        PCall.getOutline (jsTrim s0Demo.ebookTopic) ::
          tocDemo.chapters.map
            (fun c => PCall.getChapter (jsTrim s0Demo.ebookTopic) c.title c.sections) :=
  ebook_matches_outline bDemo s0Demo tocDemo (by decide) rfl rfl (by decide)

/-- C1: if the outline succeeded and the provider throws on the i-th chapter
fetch, that chapter's content degrades to the fixed placeholder, the loop
still produces every later chapter, and the run still ends `completed`. -/
theorem chapter_failure_degrades (b : ProviderBehavior) (s0 : AppState) (toc : TocStructure)
    (i : Nat) (htop : ¬ jsTrim s0.ebookTopic = "") (hk : b.hasKey = true)
    (htoc : b.tocResult = FetchResult.ok toc) (hne : ¬ toc.chapters.length = 0)
    (hi : i < toc.chapters.length) (hfail : b.chapterResult i = FetchResult.fail) :
    (generateEbook b s0).final.ebookState = EbookState.completed ∧
    ∃ e, (generateEbook b s0).final.ebook = some e ∧
      e.chapters.length = toc.chapters.length ∧
      (e.chapters[i]?).map Chapter.content = some chapterPlaceholder := by
  have hg : ∀ e, generateTableOfContents b e = (some toc, none) :=
    fun e => gtoc_ok b toc e hk htoc
  constructor
  · simp [generateEbook, hg, htop, hne]
  · simp only [generateEbook, hg, htop, if_false, ite_false, if_neg htop, if_neg hne]
    refine ⟨_, rfl, ?_, ?_⟩
    · rw [chapterLoop_chapters b _ _ hk, chaptersOf_length]
    · rw [chapterLoop_chapters b _ _ hk, chaptersOf_getElem?,
        List.getElem?_eq_getElem hi]
      simp [chContentAt, hfail]

/-- Witness for C1: chapter 0 of the demo outline throws, the run still
completes with the placeholder as chapter 0's content. -/
theorem chapter_failure_degrades_w :
    bFailChap.chapterResult 0 = FetchResult.fail ∧
      (generateEbook bFailChap s0Demo).final.ebookState = EbookState.completed :=
  ⟨by decide,
    (chapter_failure_degrades bFailChap s0Demo tocDemo 0 (by decide) rfl rfl (by decide)
      (by decide) (by decide)).1⟩

/-- C5: a run from an idle, fresh state whose outline fetch succeeds with
`n ≥ 1` chapters passes through `idle → generating → completed`, the
progress counter never decreases along the run, and at completion
`current = total = n`. -/
theorem successful_run_states (b : ProviderBehavior) (s0 : AppState) (toc : TocStructure)
    (htop : ¬ jsTrim s0.ebookTopic = "") (hk : b.hasKey = true)
    (htoc : b.tocResult = FetchResult.ok toc) (hne : ¬ toc.chapters.length = 0)
    (hidle : s0.ebookState = EbookState.idle) (h0 : s0.generationProgress.current = 0) :
    List.Sublist [EbookState.idle, EbookState.generating, EbookState.completed]
      ((generateEbook b s0).trace.map (fun st => st.ebookState)) ∧
    ProgressMono (generateEbook b s0).trace ∧
    (generateEbook b s0).final.generationProgress.current = toc.chapters.length ∧
    (generateEbook b s0).final.generationProgress.total = toc.chapters.length := by
  have hg : ∀ e, generateTableOfContents b e = (some toc, none) :=
    fun e => gtoc_ok b toc e hk htoc
  have hne' : toc.chapters ≠ [] := fun h => hne (by simp [h])
  simp only [generateEbook, hg, htop, if_false, ite_false, if_neg htop, if_neg hne,
    runServiceErrorEffect, Option.isSome_none, Bool.false_eq_true, List.cons_append,
    List.nil_append, List.map_append, List.map_cons, List.map_nil]
  refine ⟨?_, ?_, ?_, ?_⟩
  · rw [hidle]
    exact List.Sublist.cons₂ _ (List.Sublist.cons _ (List.Sublist.cons₂ _
      (List.Sublist.cons _ (List.Sublist.cons _ (List.Sublist.cons _
        (List.Sublist.trans
          (List.Sublist.cons _ (List.Sublist.cons₂ _ (List.nil_sublist _)))
          (List.sublist_append_right _ _)))))))
  · refine ⟨?_, ?_, ?_, ?_, ?_, ?_⟩ <;> try simp [h0]
    exact chapterLoop_mono b _ _ toc.chapters 0 _ [_, _] (by simp)
      ⟨le_refl _, le_refl _, trivial⟩
  · rw [(chapterLoop_final_progress b _ _ toc.chapters 0 _ hne').1, Nat.zero_add]
  · rw [(chapterLoop_final_progress b _ _ toc.chapters 0 _ hne').2]

/-- Witness for C5 on the demo run. -/
theorem successful_run_states_w :
    s0Demo.ebookState = EbookState.idle ∧
      (generateEbook bDemo s0Demo).final.generationProgress.current =
        tocDemo.chapters.length :=
  ⟨rfl,
    (successful_run_states bDemo s0Demo tocDemo (by decide) rfl rfl (by decide) rfl
      rfl).2.2.1⟩

theorem exists_split_six (x0 x1 x2 x3 x4 x5 : AppState) (mid : List AppState)
    (a c : AppState) (P Q : AppState → Prop)
    (h0 : P x0) (h1 : P x1) (h2 : P x2) (h3 : P x3) (h4 : P x4) (h5 : P x5)
    (hm : ∀ st ∈ mid, P st) (ha : Q a) (hc : Q c) :
    ∃ pre post, (x0 :: x1 :: x2 :: x3 :: x4 :: x5 :: (mid ++ [a, c])) = pre ++ post ∧
      post.length ≤ 2 ∧ (∀ st ∈ pre, P st) ∧ (∀ st ∈ post, Q st) := by
  refine ⟨x0 :: x1 :: x2 :: x3 :: x4 :: x5 :: mid, [a, c], by simp, by simp, ?_, ?_⟩
  · intro st h
    simp only [List.mem_cons] at h
    rcases h with h | h | h | h | h | h | h
    · exact h ▸ h0
    · exact h ▸ h1
    · exact h ▸ h2
    · exact h ▸ h3
    · exact h ▸ h4
    · exact h ▸ h5
    · exact hm st h
  · intro st h
    simp only [List.mem_cons, List.not_mem_nil, or_false] at h
    rcases h with h | h
    · exact h ▸ ha
    · exact h ▸ hc

/-- C9: the `ebook` value is written at most once per run, only at the very
end (after every chapter resolved); a run failing before assembly (empty
topic, missing key, failed or empty outline) leaves the previously assembled
Ebook untouched everywhere along its trace. -/
theorem ebook_written_once (b : ProviderBehavior) (s0 : AppState) :
    (∃ pre post, (generateEbook b s0).trace = pre ++ post ∧ post.length ≤ 2 ∧
      (∀ st ∈ pre, st.ebook = s0.ebook) ∧
      (∀ st ∈ post, st.ebook = (generateEbook b s0).final.ebook)) ∧
    ((jsTrim s0.ebookTopic = "" ∨ b.hasKey = false ∨
        (∀ toc, b.tocResult = FetchResult.ok toc → toc.chapters.length = 0)) →
      (generateEbook b s0).final.ebook = s0.ebook ∧
      ∀ st ∈ (generateEbook b s0).trace, st.ebook = s0.ebook) := by
  by_cases htop : jsTrim s0.ebookTopic = ""
  · have hall : ∀ st ∈ (generateEbook b s0).trace, st.ebook = s0.ebook := by
      intro st h
      simp [generateEbook, htop] at h
      rcases h with h | h | h <;> subst h <;> rfl
    have hfin : (generateEbook b s0).final.ebook = s0.ebook := by
      simp [generateEbook, htop]
    exact ⟨⟨(generateEbook b s0).trace, [], by simp, by simp, hall, by simp⟩,
      fun _ => ⟨hfin, hall⟩⟩
  · cases hkey : b.hasKey with
    | false =>
      have hg : ∀ e, generateTableOfContents b e = (none, e) := fun e => gtoc_noKey b e hkey
      have hall : ∀ st ∈ (generateEbook b s0).trace, st.ebook = s0.ebook := by
        intro st h
        simp [generateEbook, hg, htop] at h
        rcases h with h | h | h | h | h | h | h <;> subst h <;>
          simp [runServiceErrorEffect_ebook]
      have hfin : (generateEbook b s0).final.ebook = s0.ebook := by
        simp [generateEbook, hg, htop, runServiceErrorEffect_ebook]
      exact ⟨⟨(generateEbook b s0).trace, [], by simp, by simp, hall, by simp⟩,
        fun _ => ⟨hfin, hall⟩⟩
    | true =>
      cases htoc : b.tocResult with
      | fail =>
        have hg : ∀ e, generateTableOfContents b e = (none, some tocFailMsg) :=
          fun e => gtoc_fail b e hkey htoc
        have hall : ∀ st ∈ (generateEbook b s0).trace, st.ebook = s0.ebook := by
          intro st h
          simp [generateEbook, hg, htop] at h
          rcases h with h | h | h | h | h | h | h <;> subst h <;>
            simp [runServiceErrorEffect_ebook]
        have hfin : (generateEbook b s0).final.ebook = s0.ebook := by
          simp [generateEbook, hg, htop, runServiceErrorEffect_ebook]
        exact ⟨⟨(generateEbook b s0).trace, [], by simp, by simp, hall, by simp⟩,
          fun _ => ⟨hfin, hall⟩⟩
      | ok toc =>
        have hg : ∀ e, generateTableOfContents b e = (some toc, none) :=
          fun e => gtoc_ok b toc e hkey htoc
        by_cases hn : toc.chapters.length = 0
        · have hall : ∀ st ∈ (generateEbook b s0).trace, st.ebook = s0.ebook := by
            intro st h
            simp [generateEbook, hg, htop, hn] at h
            rcases h with h | h | h | h | h | h | h <;> subst h <;>
              simp [runServiceErrorEffect_ebook]
          have hfin : (generateEbook b s0).final.ebook = s0.ebook := by
            simp [generateEbook, hg, htop, hn, runServiceErrorEffect_ebook]
          exact ⟨⟨(generateEbook b s0).trace, [], by simp, by simp, hall, by simp⟩,
            fun _ => ⟨hfin, hall⟩⟩
        · constructor
          · simp only [generateEbook, hg, htop, if_false, ite_false, if_neg htop,
              if_neg hn, runServiceErrorEffect, Option.isSome_none, Bool.false_eq_true,
              List.cons_append, List.nil_append]
            refine exists_split_six _ _ _ _ _ _ _ _ _
              (fun st => st.ebook = s0.ebook) _
              rfl rfl rfl rfl rfl rfl ?_ rfl rfl
            intro st h
            rw [chapterLoop_trace_ebook b _ _ toc.chapters 0 _ st h]
          · intro hyp
            rcases hyp with h | h | h
            · exact absurd h htop
            · exact Bool.noConfusion h
            · exact absurd (h toc rfl) hn

/-- Witness for C9: a run aborted for a missing API key leaves the Ebook of
an earlier completed run readable and unchanged. -/
theorem ebook_written_once_w :
    (generateEbook bNoKey sCompDemo).final.ebook = sCompDemo.ebook :=
  ((ebook_written_once bNoKey sCompDemo).2 (Or.inr (Or.inl rfl))).1

end EbookGen
